import Mathlib

/-!
Verification development for the Mediq Health Advisor repository.

Shallow embedding of the core subsystems:
- the grounding verifier (src/rag_verification_system.py),
- the retrieval search (src/rag_system.py, src/embedding_and_vectorstore.py),
- the batch indexing pipeline with checkpoint/resume
  (src/batch_embedding_processor.py).

Scores are modelled over the rationals; external neural components (the
sentence-transformer encoder) are modelled as function parameters, since the
code treats their outputs as opaque numeric data.
-/

/-! ## Grounding verifier: RAGVerificationSystem -/

/-- Characters matched by the regex class w in the Python re module
(ASCII model): alphanumerics and the underscore. -/
def isWordChar (c : Char) : Bool := c.isAlphanum || c = '_'

/-- Effect of the substitution re.sub with pattern [^ws] and replacement
space on a single character: non-word, non-space characters become a space. -/
def normChar (c : Char) : Char := if isWordChar c || c.isWhitespace then c else ' '

/-- Model of re.sub applied to text.lower() in _find_exact_matches:
lowercase, then replace every non-word non-space character with a space. -/
def cleanText (s : String) : String := String.mk (s.toList.map (fun c => normChar c.toLower))

/-- Worker for the Python str.split method with no argument: split a
character list on whitespace runs, dropping empty pieces; the first argument
accumulates the current word in reverse. -/
def splitWsAux : List Char → List Char → List (List Char)
  | acc, [] => if acc.isEmpty then [] else [acc.reverse]
  | acc, c :: cs =>
    if c.isWhitespace then
      (if acc.isEmpty then splitWsAux [] cs else acc.reverse :: splitWsAux [] cs)
    else splitWsAux (c :: acc) cs

/-- The Python str.split method with no argument: split on whitespace runs,
dropping empty pieces. -/
def pySplit (s : String) : List String := (splitWsAux [] s.toList).map String.mk

/-- Join a list of words with single spaces (the Python join on a space). -/
def joinSpace : List String → String
  | [] => ""
  | [w] => w
  | w :: ws => w ++ " " ++ joinSpace ws

/-- Contiguous-sublist test; on character lists this is the Python `in`
operator on strings, on word lists it is containment of a word sequence. -/
def listSubstr {α : Type} [BEq α] (needle hay : List α) : Bool :=
  (List.range (hay.length + 1)).any (fun i => needle.isPrefixOf (hay.drop i))

/-- RAGVerificationSystem._find_exact_matches: normalize both texts, then for
phrase lengths 3, 4, 5 slide a window over the response words; a window
matches when the joined phrase is a character substring of the space-joined
source words (the Python `in` test on the joined string). Duplicates are
removed at the end (list(set(...))). -/
def find_exact_matches (response source_content : String) : List String :=
  let response_words := pySplit (cleanText response)
  let source_words := pySplit (cleanText source_content)
  let source_joined := joinSpace source_words
  (([3, 4, 5] : List Nat).flatMap (fun phrase_length =>
    (List.range (response_words.length + 1 - phrase_length)).filterMap (fun i =>
      let phrase := joinSpace ((response_words.drop i).take phrase_length)
      if listSubstr phrase.toList source_joined.toList then some phrase else none))).dedup

/-- Per-source verification record (identification fields source_id,
source_file and content_hash are omitted: they are string bookkeeping with no
role in the scoring logic). -/
structure SourceVerification where
  similarity_score : ℚ
  exact_matches : List String
  semantic_overlap : ℚ
  is_verified : Bool
  verification_confidence : ℚ
deriving DecidableEq

/-- RAGVerificationSystem.verify_source_grounding. The source content string
is the data read from disk (empty when the file is missing or unreadable);
the semantic similarity is the cosine similarity produced by the external
embedding model, taken here as an input. -/
def verify_source_grounding (response source_content : String)
    (semantic_similarity : ℚ) : SourceVerification :=
  if source_content = "" then
    { similarity_score := 0, exact_matches := [], semantic_overlap := 0,
      is_verified := false, verification_confidence := 0 }
  else
    let exact_matches := find_exact_matches response source_content
    let exact_match_score : ℚ := min ((exact_matches.length : ℚ) * (2/10)) 1
    let verification_confidence :=
      exact_match_score * (4/10) + semantic_similarity * (6/10)
    { similarity_score := semantic_similarity,
      exact_matches := exact_matches,
      semantic_overlap := verification_confidence,
      is_verified := decide ((0 < exact_matches.length ∧ 7/10 < semantic_similarity) ∨
        6/10 < verification_confidence),
      verification_confidence := verification_confidence }

/-- Aggregate verification record (the details dictionary is omitted: it is
reporting data, not part of the classification logic). -/
structure ResponseVerification where
  total_verification_score : ℚ
  is_grounded : Bool
  hallucination_risk : String
deriving DecidableEq

/-- The total_score local of verify_response: mean confidence, 0 when there
are no sources. -/
def total_score_of (svs : List SourceVerification) : ℚ :=
  if svs = [] then 0
  else (svs.map (fun sv => sv.verification_confidence)).sum / svs.length

/-- The verification_ratio local of verify_response: fraction of verified
sources, 0 when there are no sources. -/
def verification_ratio_of (svs : List SourceVerification) : ℚ :=
  if svs = [] then 0
  else ((svs.filter (fun sv => sv.is_verified)).length : ℚ) / svs.length

/-- The hallucination-risk ladder of verify_response. -/
def hallucination_risk_of (total_score verification_ratio : ℚ) : String :=
  if 8/10 < total_score ∧ 6/10 < verification_ratio then "LOW"
  else if 5/10 < total_score ∧ 3/10 < verification_ratio then "MEDIUM"
  else "HIGH"

/-- Per-source verification pass of verify_response: one
verify_source_grounding call per relevant document. -/
def source_verifications_of (response : String)
    (relevant_docs : List (String × ℚ)) : List SourceVerification :=
  relevant_docs.map (fun d => verify_source_grounding response d.1 d.2)

/-- RAGVerificationSystem.verify_response. Each relevant document is given by
the pair of its source-file content and the semantic similarity the external
model reports between the response and that content. -/
def verify_response (response : String) (relevant_docs : List (String × ℚ)) :
    ResponseVerification :=
  { total_verification_score :=
      total_score_of (source_verifications_of response relevant_docs),
    is_grounded :=
      decide (6/10 < total_score_of (source_verifications_of response relevant_docs) ∧
        3/10 < verification_ratio_of (source_verifications_of response relevant_docs)),
    hallucination_risk :=
      hallucination_risk_of (total_score_of (source_verifications_of response relevant_docs))
        (verification_ratio_of (source_verifications_of response relevant_docs)) }

/-! ## Claims C6 to C9: the grounding verifier -/

/-- Claim C6: verify_response classifies hallucination risk LOW iff the total
score exceeds 0.8 and the verification ratio exceeds 0.6, MEDIUM iff not LOW
and the total score exceeds 0.5 and the ratio exceeds 0.3, and HIGH
otherwise; with zero sources the total score is 0, the ratio is 0, the
response is not grounded, and the risk is HIGH. -/
theorem verify_response_risk_classification (response : String)
    (relevant_docs : List (String × ℚ)) :
    ((verify_response response relevant_docs).hallucination_risk = "LOW" ↔
      8/10 < total_score_of (source_verifications_of response relevant_docs) ∧
      6/10 < verification_ratio_of (source_verifications_of response relevant_docs)) ∧
    ((verify_response response relevant_docs).hallucination_risk = "MEDIUM" ↔
      ¬ (8/10 < total_score_of (source_verifications_of response relevant_docs) ∧
          6/10 < verification_ratio_of (source_verifications_of response relevant_docs)) ∧
      (5/10 < total_score_of (source_verifications_of response relevant_docs) ∧
        3/10 < verification_ratio_of (source_verifications_of response relevant_docs))) ∧
    ((verify_response response relevant_docs).hallucination_risk = "HIGH" ↔
      ¬ (8/10 < total_score_of (source_verifications_of response relevant_docs) ∧
          6/10 < verification_ratio_of (source_verifications_of response relevant_docs)) ∧
      ¬ (5/10 < total_score_of (source_verifications_of response relevant_docs) ∧
          3/10 < verification_ratio_of (source_verifications_of response relevant_docs))) ∧
    ((verify_response response []).total_verification_score = 0 ∧
      verification_ratio_of (source_verifications_of response []) = 0 ∧
      (verify_response response []).is_grounded = false ∧
      (verify_response response []).hallucination_risk = "HIGH") := by
  have hempty : source_verifications_of response [] = [] := rfl
  have h0 : total_score_of ([] : List SourceVerification) = 0 := rfl
  have hr0 : verification_ratio_of ([] : List SourceVerification) = 0 := rfl
  refine ⟨?_, ?_, ?_, ?_⟩
  · simp only [verify_response]
    unfold hallucination_risk_of
    split_ifs with h1 h2 <;> simp_all
  · simp only [verify_response]
    unfold hallucination_risk_of
    split_ifs with h1 h2 <;> simp_all
  · simp only [verify_response]
    unfold hallucination_risk_of
    split_ifs with h1 h2 <;> simp_all
  · simp only [verify_response, hempty, h0, hr0, hallucination_risk_of]
    norm_num

/-- Claim C7: for a readable (non-empty) source content,
verify_source_grounding computes the verification confidence as
0.4 * min(0.2 * number of exact matches, 1) + 0.6 * semantic similarity, and
sets the verified flag exactly when there is at least one exact match and the
similarity exceeds 0.7, or the confidence exceeds 0.6. -/
theorem verify_source_grounding_confidence (response source_content : String)
    (semantic_similarity : ℚ) (h : source_content ≠ "") :
    (verify_source_grounding response source_content
        semantic_similarity).verification_confidence =
      4/10 * min (((find_exact_matches response source_content).length : ℚ) * (2/10)) 1 +
        6/10 * semantic_similarity ∧
    ((verify_source_grounding response source_content
        semantic_similarity).is_verified = true ↔
      ((0 < (find_exact_matches response source_content).length ∧
          7/10 < semantic_similarity) ∨
        6/10 < (verify_source_grounding response source_content
          semantic_similarity).verification_confidence)) := by
  constructor
  · simp [verify_source_grounding, h]
    ring
  · simp [verify_source_grounding, h]

/-- Witness for claim C7 at a concrete input. -/
theorem verify_source_grounding_confidence_witness :
    (("z" : String) ≠ "") ∧
    ((verify_source_grounding ("a b c") ("z") 0).verification_confidence =
      4/10 * min (((find_exact_matches ("a b c") ("z")).length : ℚ) * (2/10)) 1 +
        6/10 * 0 ∧
    ((verify_source_grounding ("a b c") ("z") 0).is_verified = true ↔
      ((0 < (find_exact_matches ("a b c") ("z")).length ∧ 7/10 < (0 : ℚ)) ∨
        6/10 < (verify_source_grounding ("a b c") ("z") 0).verification_confidence))) :=
  ⟨by decide, verify_source_grounding_confidence ("a b c") ("z") 0 (by decide)⟩

/-- Counterexample for claim C9: with a semantic similarity of -1 (inside
the documented range of cosine similarity) and a source sharing no phrase
with the response, the verification confidence is -0.6, outside [0, 1]. -/
theorem verification_confidence_negative :
    (-1 ≤ (-1 : ℚ) ∧ (-1 : ℚ) ≤ 1) ∧
    (verify_source_grounding ("a b") ("xyz") (-1)).verification_confidence < 0 := by
  have h : find_exact_matches ("a b") ("xyz") = [] := by decide
  refine ⟨by norm_num, ?_⟩
  simp [verify_source_grounding, h]

/-- Claim C9 (amended): for a semantic similarity in [-1, 1] the verification
confidence lies in [-0.6, 1]; it can be negative, so it is not confined to
[0, 1]. -/
theorem verification_confidence_bounds (response source_content : String)
    (semantic_similarity : ℚ) (h1 : -1 ≤ semantic_similarity)
    (h2 : semantic_similarity ≤ 1) :
    -(6/10) ≤ (verify_source_grounding response source_content
        semantic_similarity).verification_confidence ∧
    (verify_source_grounding response source_content
        semantic_similarity).verification_confidence ≤ 1 := by
  unfold verify_source_grounding
  split_ifs with hempty
  · norm_num
  · have hn0 : (0 : ℚ) ≤ ((find_exact_matches response source_content).length : ℚ) :=
      Nat.cast_nonneg _
    have hm0 : (0 : ℚ) ≤
        min (((find_exact_matches response source_content).length : ℚ) * (2/10)) 1 :=
      le_min (by positivity) (by norm_num)
    have hm1 : min (((find_exact_matches response source_content).length : ℚ) * (2/10)) 1 ≤ 1 :=
      min_le_right _ _
    constructor
    · simp only []
      nlinarith
    · simp only []
      nlinarith

/-- Witness for claim C9 (amended) at a concrete input. -/
theorem verification_confidence_bounds_witness :
    (-1 ≤ (1/2 : ℚ) ∧ (1/2 : ℚ) ≤ 1) ∧
    (-(6/10) ≤ (verify_source_grounding ("a") ("b") (1/2)).verification_confidence ∧
      (verify_source_grounding ("a") ("b") (1/2)).verification_confidence ≤ 1) :=
  ⟨⟨by norm_num, by norm_num⟩,
    verification_confidence_bounds ("a") ("b") (1/2) (by norm_num) (by norm_num)⟩

/-- Counterexample for claim C8: the code tests containment of the joined
phrase as a character substring of the space-joined source words, which can
match across word boundaries. The phrase rt-is-good is reported as an exact
match against the source art-is-goodness although its word sequence is not
contained in the source word sequence. -/
theorem find_exact_matches_cross_word_boundary :
    ("rt is good" ∈ find_exact_matches ("rt is good") ("art is goodness")) ∧
    listSubstr (pySplit ("rt is good"))
      (pySplit (cleanText ("art is goodness"))) = false := by decide

/-- Claim C8 (amended): a phrase is returned by find_exact_matches exactly
when it is a window of length 3, 4 or 5 of the normalized response word
sequence whose space-joined form occurs as a character substring of the
space-joined normalized source word sequence (not: as a word sequence
inside the source word sequence). -/
theorem find_exact_matches_substring_characterization
    (response source_content : String) (p : String) :
    p ∈ find_exact_matches response source_content ↔
      ∃ phrase_length i, (phrase_length = 3 ∨ phrase_length = 4 ∨ phrase_length = 5) ∧
        i + phrase_length ≤ (pySplit (cleanText response)).length ∧
        p = joinSpace (((pySplit (cleanText response)).drop i).take phrase_length) ∧
        listSubstr p.toList
          (joinSpace (pySplit (cleanText source_content))).toList = true := by
  simp only [find_exact_matches, List.mem_dedup, List.mem_flatMap, List.mem_filterMap,
    List.mem_range]
  constructor
  · rintro ⟨plen, hplen, i, hi, hsome⟩
    simp only [List.mem_cons, List.not_mem_nil, or_false] at hplen
    by_cases hc : listSubstr
        (joinSpace (((pySplit (cleanText response)).drop i).take plen)).toList
        (joinSpace (pySplit (cleanText source_content))).toList = true
    · rw [if_pos hc] at hsome
      obtain rfl := Option.some.inj hsome
      exact ⟨plen, i, hplen, by omega, rfl, hc⟩
    · rw [if_neg hc] at hsome
      exact absurd hsome (by simp)
  · rintro ⟨plen, i, hd, hle, rfl, hsub⟩
    refine ⟨plen, ?_, i, ?_, ?_⟩
    · simpa using hd
    · rcases hd with rfl | rfl | rfl <;> omega
    · rw [if_pos hsub]

/-! ## Retrieval engine: HealthRAGSystem.search_relevant_documents over a
faiss IndexFlatL2 -/

/-- Squared L2 distance between two vectors, the metric of faiss
IndexFlatL2. -/
def l2sq (q v : List ℚ) : ℚ := ((q.zip v).map (fun p => (p.1 - p.2) ^ 2)).sum

/-- The FLT_MAX padding distance faiss reports for the slots beyond the
number of stored vectors. -/
def fltMax : ℚ := 340282346638528859811704183484516925440

/-- Insert one scored row into a distance-sorted list (stable: equal
distances keep the earlier row first). -/
def insertByDist (x : ℚ × Int) : List (ℚ × Int) → List (ℚ × Int)
  | [] => [x]
  | y :: ys => if x.1 < y.1 then x :: y :: ys else y :: insertByDist x ys

/-- Sort scored rows by ascending distance. -/
def sortByDist : List (ℚ × Int) → List (ℚ × Int)
  | [] => []
  | x :: xs => insertByDist x (sortByDist xs)

/-- Model of faiss IndexFlatL2.search for one query: every stored vector is
scored by squared L2 distance, the k best (ascending) are returned, and when
fewer than k vectors are stored the remaining slots are padded with the pair
of FLT_MAX and the invalid row id -1. -/
def faiss_search (stored : List (List ℚ)) (query : List ℚ) (k : Nat) :
    List (ℚ × Int) :=
  let scored := stored.enum.map (fun p => (l2sq query p.2, (p.1 : Int)))
  let ranked := (sortByDist scored).take k
  ranked ++ List.replicate (k - ranked.length) (fltMax, (-1 : Int))

/-- Python list indexing: a non-negative index reads from the front, a
negative index wraps from the back, anything else raises IndexError. -/
def pyGet {α : Type} (l : List α) (i : Int) : Option α :=
  if 0 ≤ i then l.get? i.toNat
  else if (-i).toNat ≤ l.length then l.get? (l.length - (-i).toNat)
  else none

/-- The not-ready message raised by HealthRAGSystem.search_relevant_documents
when no index is loaded. -/
def notLoadedError : String := "Search system not loaded. Call load_search_system() first."

/-- HealthRAGSystem.search_relevant_documents: raise when the index is not
loaded; otherwise run the faiss search and keep every result row whose index
satisfies the Python comparison idx < len(metadata), reading the metadata
entry with Python indexing semantics. The query embedding is the output of
the external encoder, taken here as an input. -/
def search_relevant_documents {μ : Type} (faiss_index : Option (List (List ℚ)))
    (metadata : List μ) (query_embedding : List ℚ) (k : Nat) :
    Except String (List (ℚ × μ × Int)) :=
  match faiss_index with
  | none => Except.error notLoadedError
  | some stored =>
    Except.ok ((faiss_search stored query_embedding k).filterMap (fun r =>
      if r.2 < (metadata.length : Int) then
        (pyGet metadata r.2).map (fun m => (r.1, m, r.2))
      else none))

/-! ## Claim C10: retrieval search -/

/-- Claim C10, settled against the code: searching without a loaded index
raises the not-ready error, but with a loaded index holding one vector and a
query asking for k = 2 results the code returns two results, not fewer: the
faiss padding row (distance FLT_MAX, row id -1) passes the Python comparison
idx < len(metadata) and negative indexing maps it to the last metadata
entry, so the claimed strictly-fewer-than-k property fails. -/
theorem search_not_ready_and_padding :
    search_relevant_documents (none : Option (List (List ℚ)))
        (["m0"]) [0] 2 = Except.error notLoadedError ∧
    search_relevant_documents (some [[0]]) (["m0"]) [0] 2 =
      Except.ok [(0, "m0", 0), (fltMax, "m0", -1)] ∧
    (1 : Nat) < 2 := by
  refine ⟨rfl, ?_, by norm_num⟩
  simp [search_relevant_documents, faiss_search, sortByDist, insertByDist, l2sq, pyGet, fltMax]

/-! ## Batch indexing pipeline: BatchEmbeddingProcessor

Chunked documents carry a page content (of abstract type) and a metadata
value; the embedding model is a function parameter; vectors are abstract.
The mutable processor object is modelled by an explicit state record, the
checkpoint directory by a record of three optional artifacts (none models an
artifact that is missing or fails to deserialize). -/

/-- A chunked document: page_content and metadata. -/
structure Document (α μ : Type) where
  page_content : α
  metadata : μ
deriving DecidableEq

/-- The mutable state of a BatchEmbeddingProcessor after load_model: the
configured model name, the embedding dimension reported by the model, the
optional faiss index (a list of vectors in insertion order), and the
metadata list. -/
structure ProcessorState (V μ : Type) where
  model_name : String
  embedding_dim : Nat
  faiss_index : Option (List V)
  metadata : List μ
deriving DecidableEq

/-- The processing_state artifact of a checkpoint (the timestamp is
omitted). -/
structure StateRecord where
  processed_chunks : Nat
  model_name : String
  embedding_dim : Nat
deriving DecidableEq

/-- The three artifacts of a checkpoint directory; none models an artifact
that is missing or fails to deserialize. -/
structure CheckpointData (V μ : Type) where
  index_file : Option (List V)
  metadata_file : Option (List μ)
  state_file : Option StateRecord
deriving DecidableEq

/-- BatchEmbeddingProcessor.process_batch: encode the texts of a batch and
extract its metadata, in order. -/
def process_batch {α V μ : Type} (embed : α → V) (chunked_docs : List (Document α μ)) :
    List V × List μ :=
  (chunked_docs.map (fun d => embed d.page_content), chunked_docs.map (fun d => d.metadata))

/-- BatchEmbeddingProcessor.add_to_index: create the index on first use, then
append the new vectors. -/
def add_to_index {V μ : Type} (p : ProcessorState V μ) (embeddings : List V) :
    ProcessorState V μ :=
  match p.faiss_index with
  | none => { p with faiss_index := some embeddings }
  | some ix => { p with faiss_index := some (ix ++ embeddings) }

/-- The processing state descriptor save_checkpoint serializes: the
processed count is the current metadata length. -/
def state_record_of {V μ : Type} (p : ProcessorState V μ) : StateRecord :=
  { processed_chunks := p.metadata.length,
    model_name := p.model_name,
    embedding_dim := p.embedding_dim }

/-- BatchEmbeddingProcessor.save_checkpoint: the checkpoint directory written
from a processor state (index, metadata, then the state descriptor whose
processed count is the metadata length). -/
def save_checkpoint {V μ : Type} (p : ProcessorState V μ) : CheckpointData V μ :=
  { index_file := some (p.faiss_index.getD []),
    metadata_file := some p.metadata,
    state_file := some (state_record_of p) }

/-- How each artifact of save_checkpoint is written to the store: a write
mode (in place, or to a temporary location followed by an atomic replace)
and the effect on the stored directory. The source writes each artifact
directly to its final path, in the order index, metadata, state. -/
inductive WriteMode where
  | inPlace
  | tempThenReplace
deriving DecidableEq

/-- The sequence of file writes performed by save_checkpoint, in program
order, each with its write mode and its effect on the checkpoint store. -/
def save_checkpoint_writes {V μ : Type} (p : ProcessorState V μ) :
    List (WriteMode × (CheckpointData V μ → CheckpointData V μ)) :=
  [(WriteMode.inPlace, fun s => { s with index_file := some (p.faiss_index.getD []) }),
   (WriteMode.inPlace, fun s => { s with metadata_file := some p.metadata }),
   (WriteMode.inPlace, fun s => { s with state_file := some (state_record_of p) })]

/-- The checkpoint store after the first n of the writes of save_checkpoint
have completed (a crash point between writes leaves exactly such a state). -/
def save_checkpoint_after {V μ : Type} (p : ProcessorState V μ)
    (s0 : CheckpointData V μ) (n : Nat) : CheckpointData V μ :=
  (((save_checkpoint_writes p).take n).map Prod.snd).foldl (fun s f => f s) s0

/-- BatchEmbeddingProcessor.load_checkpoint: a missing directory returns
false; otherwise the index, metadata, and state artifacts are loaded in that
order, each assignment taking effect before the next load is attempted; any
deserialization failure is caught and returns false, keeping the
assignments already made. The loaded state record is not compared with the
configured model name or embedding dimension. -/
def load_checkpoint {V μ : Type} (p : ProcessorState V μ)
    (checkpoint : Option (CheckpointData V μ)) : ProcessorState V μ × Bool :=
  match checkpoint with
  | none => (p, false)
  | some c =>
    match c.index_file with
    | none => (p, false)
    | some ix =>
      match c.metadata_file with
      | none => ({ p with faiss_index := some ix }, false)
      | some md =>
        match c.state_file with
        | none => ({ p with faiss_index := some ix, metadata := md }, false)
        | some _ => ({ p with faiss_index := some ix, metadata := md }, true)

/-- One iteration of the batch loop of process_all_batches: slice the chunks
of the batch (the Python slice from batch_start to batch_end), embed them,
append the vectors to the index and the metadata to the metadata list. The
resulting state is what save_checkpoint persists for this batch. -/
def batch_step {α V μ : Type} (embed : α → V) (chunked_docs : List (Document α μ))
    (chunk_batch_size batch_num : Nat) (p : ProcessorState V μ) : ProcessorState V μ :=
  let batch_start := batch_num * chunk_batch_size
  let batch_end := min ((batch_num + 1) * chunk_batch_size) chunked_docs.length
  let eb := process_batch embed ((chunked_docs.drop batch_start).take (batch_end - batch_start))
  let p1 := add_to_index p eb.1
  { p1 with metadata := p1.metadata ++ eb.2 }

/-- The batch loop of process_all_batches: fuel counts the remaining
batches, batch_num is the current batch index. -/
def run_batches {α V μ : Type} (embed : α → V) (chunked_docs : List (Document α μ))
    (chunk_batch_size : Nat) : Nat → Nat → ProcessorState V μ → ProcessorState V μ
  | 0, _, p => p
  | fuel + 1, batch_num, p =>
    run_batches embed chunked_docs chunk_batch_size fuel (batch_num + 1)
      (batch_step embed chunked_docs chunk_batch_size batch_num p)

/-- The number of batches computed by process_all_batches. -/
def total_batches (total_chunks chunk_batch_size : Nat) : Nat :=
  (total_chunks + chunk_batch_size - 1) / chunk_batch_size

/-- A processor fresh out of init and load_model: no index, no metadata. -/
def fresh_processor {V μ : Type} (model_name : String) (embedding_dim : Nat) :
    ProcessorState V μ :=
  { model_name := model_name, embedding_dim := embedding_dim,
    faiss_index := none, metadata := [] }

/-- BatchEmbeddingProcessor.process_all_batches: optionally resume from a
checkpoint (start_batch is recomputed as the loaded metadata length divided
by the chunk batch size when the load succeeds, otherwise 0), then run the
remaining batches. The returned state is what save_final_results persists. -/
def process_all_batches {α V μ : Type} (embed : α → V)
    (chunked_docs : List (Document α μ)) (chunk_batch_size : Nat)
    (model_name : String) (embedding_dim : Nat)
    (checkpoint : Option (CheckpointData V μ)) (resume : Bool) :
    ProcessorState V μ :=
  let loaded :=
    if resume then load_checkpoint (fresh_processor model_name embedding_dim) checkpoint
    else (fresh_processor model_name embedding_dim, false)
  let start_batch :=
    if loaded.2 then loaded.1.metadata.length / chunk_batch_size else 0
  run_batches embed chunked_docs chunk_batch_size
    (total_batches chunked_docs.length chunk_batch_size - start_batch) start_batch loaded.1

/-- The processor state of an uninterrupted fresh run after its first j
batches; its save_checkpoint image is the checkpoint on disk when a crash
happens after batch boundary j. -/
def state_after_batches {α V μ : Type} (embed : α → V)
    (chunked_docs : List (Document α μ)) (chunk_batch_size : Nat)
    (model_name : String) (embedding_dim : Nat) (j : Nat) : ProcessorState V μ :=
  run_batches embed chunked_docs chunk_batch_size j 0
    (fresh_processor model_name embedding_dim)

/-- The contiguous slice of chunks covered by batches b, ..., b + n - 1. -/
def chunk_segment {α μ : Type} (chunked_docs : List (Document α μ))
    (chunk_batch_size b n : Nat) : List (Document α μ) :=
  (chunked_docs.drop (b * chunk_batch_size)).take
    (min ((b + n) * chunk_batch_size) chunked_docs.length - b * chunk_batch_size)

theorem chunk_segment_zero {α μ : Type} (docs : List (Document α μ)) (cbs b : Nat) :
    chunk_segment docs cbs b 0 = [] := by
  unfold chunk_segment
  rw [Nat.add_zero, Nat.sub_eq_zero_of_le (min_le_left _ _), List.take_zero]

theorem chunk_segment_succ {α μ : Type} (docs : List (Document α μ)) (cbs b n : Nat) :
    chunk_segment docs cbs b 1 ++ chunk_segment docs cbs (b + 1) n =
      chunk_segment docs cbs b (n + 1) := by
  unfold chunk_segment
  rw [show b + 1 + n = b + (n + 1) from by omega]
  have hmono : (b + 1) * cbs ≤ (b + (n + 1)) * cbs := Nat.mul_le_mul_right _ (by omega)
  rcases le_or_lt ((b + 1) * cbs) docs.length with h | h
  · have hbc : b * cbs ≤ (b + 1) * cbs := Nat.mul_le_mul_right _ (by omega)
    have hdd : docs.drop ((b + 1) * cbs) =
        (docs.drop (b * cbs)).drop ((b + 1) * cbs - b * cbs) := by
      rw [List.drop_drop]
      congr 1
      omega
    have e1 : min ((b + 1) * cbs) docs.length = (b + 1) * cbs := min_eq_left h
    have harith : (b + 1) * cbs - b * cbs +
        (min ((b + (n + 1)) * cbs) docs.length - (b + 1) * cbs) =
        min ((b + (n + 1)) * cbs) docs.length - b * cbs := by
      omega
    rw [hdd, e1, ← harith, List.take_add]
  · have e1 : min ((b + 1) * cbs) docs.length = docs.length := min_eq_right (le_of_lt h)
    have e3 : min ((b + (n + 1)) * cbs) docs.length = docs.length :=
      min_eq_right (by omega)
    have hnil : docs.drop ((b + 1) * cbs) = [] := by
      apply List.drop_eq_nil_of_le
      omega
    rw [e1, e3, hnil, List.take_nil, List.append_nil]

theorem run_batches_add {α V μ : Type} (embed : α → V) (docs : List (Document α μ))
    (cbs : Nat) :
    ∀ (m n b : Nat) (p : ProcessorState V μ),
    run_batches embed docs cbs (m + n) b p =
      run_batches embed docs cbs n (b + m) (run_batches embed docs cbs m b p) := by
  intro m
  induction m with
  | zero =>
    intro n b p
    simp [run_batches]
  | succ k ih =>
    intro n b p
    rw [show k + 1 + n = (k + n) + 1 from by omega]
    show run_batches embed docs cbs (k + n) (b + 1) (batch_step embed docs cbs b p) = _
    rw [ih]
    show run_batches embed docs cbs n (b + 1 + k) _ =
      run_batches embed docs cbs n (b + (k + 1)) _
    rw [show b + 1 + k = b + (k + 1) from by omega]
    rfl

theorem run_batches_some {α V μ : Type} (embed : α → V) (docs : List (Document α μ))
    (cbs : Nat) :
    ∀ (n b : Nat) (mn : String) (dim : Nat) (ix : List V) (md : List μ),
    run_batches embed docs cbs n b ⟨mn, dim, some ix, md⟩ =
      ⟨mn, dim,
        some (ix ++ (chunk_segment docs cbs b n).map (fun d => embed d.page_content)),
        md ++ (chunk_segment docs cbs b n).map (fun d => d.metadata)⟩ := by
  intro n
  induction n with
  | zero =>
    intro b mn dim ix md
    rw [chunk_segment_zero]
    simp [run_batches]
  | succ k ih =>
    intro b mn dim ix md
    show run_batches embed docs cbs k (b + 1)
        (batch_step embed docs cbs b ⟨mn, dim, some ix, md⟩) = _
    have hstep : batch_step embed docs cbs b ⟨mn, dim, some ix, md⟩ =
        ⟨mn, dim,
          some (ix ++ (chunk_segment docs cbs b 1).map (fun d => embed d.page_content)),
          md ++ (chunk_segment docs cbs b 1).map (fun d => d.metadata)⟩ := by
      simp [batch_step, process_batch, add_to_index, chunk_segment]
    rw [hstep, ih]
    have hseg := chunk_segment_succ docs cbs b k
    simp only [List.append_assoc, ← List.map_append, hseg]

theorem state_after_batches_eq {α V μ : Type} (embed : α → V)
    (docs : List (Document α μ)) (cbs : Nat) (mn : String) (dim : Nat)
    (j : Nat) (hj : 1 ≤ j) :
    state_after_batches embed docs cbs mn dim j =
      ⟨mn, dim,
        some ((docs.take (min (j * cbs) docs.length)).map (fun d => embed d.page_content)),
        (docs.take (min (j * cbs) docs.length)).map (fun d => d.metadata)⟩ := by
  obtain ⟨k, rfl⟩ : ∃ k, j = k + 1 := ⟨j - 1, by omega⟩
  unfold state_after_batches
  show run_batches embed docs cbs k 1
      (batch_step embed docs cbs 0 (fresh_processor mn dim)) = _
  have hstep : batch_step embed docs cbs 0 (fresh_processor mn dim) =
      (⟨mn, dim,
        some ((chunk_segment docs cbs 0 1).map (fun d => embed d.page_content)),
        (chunk_segment docs cbs 0 1).map (fun d => d.metadata)⟩ : ProcessorState V μ) := by
    simp [batch_step, process_batch, add_to_index, fresh_processor, chunk_segment]
  rw [hstep, run_batches_some]
  have hseg := chunk_segment_succ docs cbs 0 k
  simp only [Nat.zero_add] at hseg
  have hfull : chunk_segment docs cbs 0 (k + 1) =
      docs.take (min ((k + 1) * cbs) docs.length) := by
    unfold chunk_segment
    rw [Nat.zero_mul, Nat.zero_add, List.drop_zero, Nat.sub_zero]
  simp only [← List.map_append, hseg, hfull]

theorem lt_total_batches_iff {len cbs j : Nat} (h : 0 < cbs) :
    j < total_batches len cbs ↔ j * cbs < len := by
  unfold total_batches
  rw [Nat.lt_iff_add_one_le, Nat.le_div_iff_mul_le h]
  have hexp : (j + 1) * cbs = j * cbs + cbs := by ring
  omega

theorem total_batches_of_dvd {len cbs : Nat} (h : 0 < cbs) (hd : cbs ∣ len) :
    total_batches len cbs = len / cbs := by
  obtain ⟨q, rfl⟩ := hd
  unfold total_batches
  rw [show cbs * q + cbs - 1 = cbs * q + (cbs - 1) from by omega,
    Nat.mul_add_div h, Nat.mul_div_cancel_left _ h,
    Nat.div_eq_of_lt (by omega), Nat.add_zero]

/-! ## Claims C1 to C5: the batch indexing pipeline and the checkpoint
store -/

/-- Counterexample for claim C1: with three chunks and a chunk batch size of
two, a crash after the second (final, partial) batch boundary followed by a
resumed run does not reproduce the uninterrupted result: the loaded
processed count of 3 yields start_batch = 3 / 2 = 1, so the final batch is
re-processed and its chunk is appended twice. -/
theorem resume_duplicates_final_partial_batch :
    process_all_batches (fun n : Nat => n)
        ([⟨0, 10⟩, ⟨1, 11⟩, ⟨2, 12⟩] : List (Document Nat Nat)) 2 ("m") 1
        (some (save_checkpoint (state_after_batches (fun n : Nat => n)
          ([⟨0, 10⟩, ⟨1, 11⟩, ⟨2, 12⟩] : List (Document Nat Nat)) 2 ("m") 1 2))) true ≠
      process_all_batches (fun n : Nat => n)
        ([⟨0, 10⟩, ⟨1, 11⟩, ⟨2, 12⟩] : List (Document Nat Nat)) 2 ("m") 1 none true := by
  decide

/-- Claim C1 (amended): resume equivalence holds for a crash after batch
boundary j whenever the processed count at that boundary is a multiple of
the chunk batch size — that is, for every boundary except the one after a
final partial batch: j below the total batch count, or equal to it when the
chunk batch size divides the chunk count. -/
theorem resume_equivalence_aligned {α V μ : Type} (embed : α → V)
    (docs : List (Document α μ)) (cbs : Nat) (mn : String) (dim : Nat) (j : Nat)
    (hcbs : 0 < cbs) (hj1 : 1 ≤ j)
    (hj : j < total_batches docs.length cbs ∨
      (j = total_batches docs.length cbs ∧ cbs ∣ docs.length)) :
    process_all_batches embed docs cbs mn dim
        (some (save_checkpoint (state_after_batches embed docs cbs mn dim j))) true =
      process_all_batches embed docs cbs mn dim none true := by
  have hchar := state_after_batches_eq embed docs cbs mn dim j hj1
  have hrhs : process_all_batches embed docs cbs mn dim none true =
      state_after_batches embed docs cbs mn dim (total_batches docs.length cbs) := by
    simp [process_all_batches, load_checkpoint, state_after_batches]
  have hload : load_checkpoint (fresh_processor mn dim)
      (some (save_checkpoint (state_after_batches embed docs cbs mn dim j))) =
      (state_after_batches embed docs cbs mn dim j, true) := by
    rw [hchar]
    rfl
  have hlen : (state_after_batches embed docs cbs mn dim j).metadata.length =
      min (j * cbs) docs.length := by
    rw [hchar]
    simp only [List.length_map, List.length_take]
    omega
  have hLHS : process_all_batches embed docs cbs mn dim
      (some (save_checkpoint (state_after_batches embed docs cbs mn dim j))) true =
      run_batches embed docs cbs
        (total_batches docs.length cbs - min (j * cbs) docs.length / cbs)
        (min (j * cbs) docs.length / cbs)
        (state_after_batches embed docs cbs mn dim j) := by
    simp [process_all_batches, hload, hlen]
  rcases hj with hlt | ⟨hje, hdvd⟩
  · have hjc : j * cbs < docs.length := (lt_total_batches_iff hcbs).mp hlt
    have hmin : min (j * cbs) docs.length = j * cbs := min_eq_left (le_of_lt hjc)
    have hdiv : j * cbs / cbs = j := Nat.mul_div_cancel _ hcbs
    rw [hLHS, hmin, hdiv, hrhs]
    unfold state_after_batches
    rw [show total_batches docs.length cbs =
        j + (total_batches docs.length cbs - j) from by omega,
      run_batches_add]
    rw [Nat.zero_add, Nat.add_sub_cancel_left]
  · have htb : total_batches docs.length cbs = docs.length / cbs :=
      total_batches_of_dvd hcbs hdvd
    have hjc : j * cbs = docs.length := by
      rw [hje, htb, Nat.div_mul_cancel hdvd]
    have hmin : min (j * cbs) docs.length = docs.length := by omega
    have hdiv : docs.length / cbs = j := by omega
    rw [hLHS, hmin, hdiv, hje, Nat.sub_self, hrhs]
    rfl

/-- Witness for claim C1 (amended) at a concrete input: crash after the
first batch boundary of a three-chunk run with chunk batch size two. -/
theorem resume_equivalence_aligned_witness :
    (0 < 2 ∧ 1 ≤ 1 ∧ 1 < total_batches 3 2) ∧
    process_all_batches (fun n : Nat => n)
        ([⟨0, 10⟩, ⟨1, 11⟩, ⟨2, 12⟩] : List (Document Nat Nat)) 2 ("m") 1
        (some (save_checkpoint (state_after_batches (fun n : Nat => n)
          ([⟨0, 10⟩, ⟨1, 11⟩, ⟨2, 12⟩] : List (Document Nat Nat)) 2 ("m") 1 1))) true =
      process_all_batches (fun n : Nat => n)
        ([⟨0, 10⟩, ⟨1, 11⟩, ⟨2, 12⟩] : List (Document Nat Nat)) 2 ("m") 1 none true :=
  ⟨⟨by decide, by decide, by decide⟩,
    resume_equivalence_aligned (fun n : Nat => n)
      ([⟨0, 10⟩, ⟨1, 11⟩, ⟨2, 12⟩] : List (Document Nat Nat)) 2 ("m") 1 1
      (by decide) (by decide) (Or.inl (by decide))⟩

/-- Counterexample for claim C2: a run resumed from a checkpoint whose
metadata artifact fails to deserialize retains the two loaded index vectors
(load_checkpoint returns false, so the run starts at batch 0), and the
durable checkpoint that save_checkpoint writes after its only batch — which
is also the final state — holds three index rows against one metadata
entry: the row-alignment invariant fails at a durable checkpoint written by
save_checkpoint. -/
theorem checkpoint_row_misalignment_after_partial_load :
    save_checkpoint (process_all_batches (fun n : Nat => n)
        ([⟨0, 10⟩] : List (Document Nat Nat)) 1 ("m") 384
        (some ⟨some [5, 6], none, none⟩) true) =
      ⟨some [5, 6, 0], some [10], some ⟨1, "m", 384⟩⟩ ∧
    ((save_checkpoint (process_all_batches (fun n : Nat => n)
        ([⟨0, 10⟩] : List (Document Nat Nat)) 1 ("m") 384
        (some ⟨some [5, 6], none, none⟩) true)).index_file.getD []).length ≠
      ((save_checkpoint (process_all_batches (fun n : Nat => n)
        ([⟨0, 10⟩] : List (Document Nat Nat)) 1 ("m") 384
        (some ⟨some [5, 6], none, none⟩) true)).metadata_file.getD []).length := by
  decide

/-- Claim C2 (amended): the row-alignment invariant index.size =
len(metadata) is preserved by the batch loop from any starting state in
which it holds, so it holds at every durable checkpoint and at final
completion of every run whose post-load starting state is aligned — in
particular every uninterrupted fresh run, where moreover the i-th index row
is the embedding of the i-th input chunk and the i-th metadata entry its
metadata. It does not hold for the checkpoints of a run resumed from a
partially deserialized checkpoint, whose retained index breaks the
starting alignment. -/
theorem checkpoint_row_alignment_of_consistent_start {α V μ : Type} (embed : α → V)
    (docs : List (Document α μ)) (cbs : Nat) (mn : String) (dim : Nat)
    (ix : List V) (md : List μ) (b j : Nat) (hc : ix.length = md.length) :
    (((run_batches embed docs cbs j b ⟨mn, dim, some ix, md⟩).faiss_index.getD []).length =
      (run_batches embed docs cbs j b ⟨mn, dim, some ix, md⟩).metadata.length) ∧
    (1 ≤ j →
      (state_after_batches embed docs cbs mn dim j).faiss_index =
        some ((docs.take (min (j * cbs) docs.length)).map (fun d => embed d.page_content)) ∧
      (state_after_batches embed docs cbs mn dim j).metadata =
        (docs.take (min (j * cbs) docs.length)).map (fun d => d.metadata) ∧
      ((state_after_batches embed docs cbs mn dim j).faiss_index.getD []).length =
        (state_after_batches embed docs cbs mn dim j).metadata.length ∧
      ∀ i, i < min (j * cbs) docs.length →
        (state_after_batches embed docs cbs mn dim j).metadata.get? i =
          (docs.get? i).map (fun d => d.metadata)) := by
  constructor
  · rw [run_batches_some]
    simp [hc]
  · intro hj
    have h := state_after_batches_eq embed docs cbs mn dim j hj
    rw [h]
    refine ⟨rfl, rfl, by simp, ?_⟩
    intro i hi
    rw [List.get?_map, List.get?_take (by omega)]

/-- Witness for claim C2 (amended) at a concrete input: one batch over three
chunks with chunk batch size two, from an aligned two-row starting state. -/
theorem checkpoint_row_alignment_of_consistent_start_witness :
    ([5, 6] : List Nat).length = ([7, 8] : List Nat).length ∧
    ((((run_batches (fun n : Nat => n)
        ([⟨0, 10⟩, ⟨1, 11⟩, ⟨2, 12⟩] : List (Document Nat Nat)) 2 1 0
        ⟨"m", 1, some [5, 6], [7, 8]⟩).faiss_index.getD []).length =
      (run_batches (fun n : Nat => n)
        ([⟨0, 10⟩, ⟨1, 11⟩, ⟨2, 12⟩] : List (Document Nat Nat)) 2 1 0
        ⟨"m", 1, some [5, 6], [7, 8]⟩).metadata.length) ∧
    (1 ≤ 1 →
      (state_after_batches (fun n : Nat => n)
        ([⟨0, 10⟩, ⟨1, 11⟩, ⟨2, 12⟩] : List (Document Nat Nat)) 2 ("m") 1 1).faiss_index =
        some ((([⟨0, 10⟩, ⟨1, 11⟩, ⟨2, 12⟩] : List (Document Nat Nat)).take
          (min (1 * 2) ([⟨0, 10⟩, ⟨1, 11⟩, ⟨2, 12⟩] : List (Document Nat Nat)).length)).map
            (fun d => (fun n : Nat => n) d.page_content)) ∧
      (state_after_batches (fun n : Nat => n)
        ([⟨0, 10⟩, ⟨1, 11⟩, ⟨2, 12⟩] : List (Document Nat Nat)) 2 ("m") 1 1).metadata =
        (([⟨0, 10⟩, ⟨1, 11⟩, ⟨2, 12⟩] : List (Document Nat Nat)).take
          (min (1 * 2) ([⟨0, 10⟩, ⟨1, 11⟩, ⟨2, 12⟩] : List (Document Nat Nat)).length)).map
            (fun d => d.metadata) ∧
      ((state_after_batches (fun n : Nat => n)
        ([⟨0, 10⟩, ⟨1, 11⟩, ⟨2, 12⟩] : List (Document Nat Nat)) 2 ("m") 1 1).faiss_index.getD
            []).length =
        (state_after_batches (fun n : Nat => n)
          ([⟨0, 10⟩, ⟨1, 11⟩, ⟨2, 12⟩] : List (Document Nat Nat)) 2 ("m") 1 1).metadata.length ∧
      ∀ i, i < min (1 * 2) ([⟨0, 10⟩, ⟨1, 11⟩, ⟨2, 12⟩] : List (Document Nat Nat)).length →
        (state_after_batches (fun n : Nat => n)
          ([⟨0, 10⟩, ⟨1, 11⟩, ⟨2, 12⟩] : List (Document Nat Nat)) 2 ("m") 1 1).metadata.get? i =
          (([⟨0, 10⟩, ⟨1, 11⟩, ⟨2, 12⟩] : List (Document Nat Nat)).get? i).map
            (fun d => d.metadata))) :=
  ⟨by decide,
    checkpoint_row_alignment_of_consistent_start (fun n : Nat => n)
      ([⟨0, 10⟩, ⟨1, 11⟩, ⟨2, 12⟩] : List (Document Nat Nat)) 2 ("m") 1
      [5, 6] [7, 8] 0 1 (by decide)⟩

/-- Counterexample for claim C3: a checkpoint whose stored model identity
disagrees with the configured one (same dimension) is loaded successfully —
no configuration-mismatch error is raised — and the resumed run appends the
newly embedded chunk onto the loaded index. -/
theorem mismatched_checkpoint_loaded_and_extended :
    (load_checkpoint (fresh_processor ("model-A") 384 : ProcessorState Nat Nat)
        (some ⟨some [5], some [7], some ⟨1, "model-B", 384⟩⟩)).2 = true ∧
    process_all_batches (fun n : Nat => n)
        ([⟨0, 10⟩, ⟨1, 11⟩] : List (Document Nat Nat)) 1 ("model-A") 384
        (some ⟨some [5], some [7], some ⟨1, "model-B", 384⟩⟩) true =
      ⟨"model-A", 384, some [5, 1], [7, 11]⟩ := by
  exact ⟨rfl, by decide⟩

/-- Claim C3 (amended): load_checkpoint never compares the model identity or
embedding dimension stored in the checkpoint state record with the
configured values: even under a mismatch it installs the checkpoint index
and metadata and reports success, so a subsequent resumed run continues on
top of them. -/
theorem load_checkpoint_ignores_state_record {V μ : Type} (p : ProcessorState V μ)
    (ix : List V) (md : List μ) (st : StateRecord)
    (h : st.model_name ≠ p.model_name ∨ st.embedding_dim ≠ p.embedding_dim) :
    load_checkpoint p (some ⟨some ix, some md, some st⟩) =
      ({ p with faiss_index := some ix, metadata := md }, true) := rfl

/-- Witness for claim C3 (amended) at a concrete input. -/
theorem load_checkpoint_ignores_state_record_witness :
    (("model-B" : String) ≠ "model-A" ∨ (384 : Nat) ≠ 384) ∧
    load_checkpoint (fresh_processor ("model-A") 384 : ProcessorState Nat Nat)
        (some ⟨some [5], some [7], some ⟨1, "model-B", 384⟩⟩) =
      ((⟨"model-A", 384, some [5], [7]⟩ : ProcessorState Nat Nat), true) :=
  ⟨Or.inl (by decide),
    load_checkpoint_ignores_state_record (fresh_processor ("model-A") 384)
      [5] [7] ⟨1, "model-B", 384⟩ (Or.inl (by decide))⟩

/-- Counterexample for claim C4: an internally inconsistent checkpoint (two
index vectors, one metadata entry) loads with success rather than a
not-found signal; a checkpoint whose metadata artifact fails to deserialize
returns false but retains the already-loaded index, and the subsequent fresh
run extends that retained index, ending with three vectors against one
metadata entry. -/
theorem load_checkpoint_retains_partial_state :
    load_checkpoint (fresh_processor ("m") 384 : ProcessorState Nat Nat)
        (some ⟨some [5, 6], some [7], some ⟨1, "m", 384⟩⟩) =
      (⟨"m", 384, some [5, 6], [7]⟩, true) ∧
    load_checkpoint (fresh_processor ("m") 384 : ProcessorState Nat Nat)
        (some ⟨some [5, 6], none, none⟩) =
      (⟨"m", 384, some [5, 6], []⟩, false) ∧
    process_all_batches (fun n : Nat => n)
        ([⟨0, 10⟩] : List (Document Nat Nat)) 1 ("m") 384
        (some ⟨some [5, 6], none, none⟩) true =
      ⟨"m", 384, some [5, 6, 0], [10]⟩ := by
  exact ⟨rfl, rfl, by decide⟩

/-- Claim C4 (amended): a missing checkpoint directory is reported as
not-found (false) with the processor untouched, and a deserialization
failure in the metadata artifact is caught and reported as false — but the
index artifact already assigned is retained, and no consistency between
index size and metadata length is ever validated. -/
theorem load_checkpoint_recoverable_behaviour {V μ : Type}
    (p : ProcessorState V μ) (ix : List V) (st : Option StateRecord) :
    load_checkpoint p none = (p, false) ∧
    load_checkpoint p (some ⟨some ix, none, st⟩) =
      ({ p with faiss_index := some ix }, false) := ⟨rfl, rfl⟩

/-- Counterexample for claim C5: every write of save_checkpoint is performed
in place (no temporary location and replace), and after the first write — a
possible crash point — the store holds the new one-vector index next to the
old empty metadata list: the row counts disagree. -/
theorem save_checkpoint_not_atomic :
    ((save_checkpoint_writes (⟨"m", 1, some [5], [7]⟩ : ProcessorState Nat Nat)).map
      Prod.fst) = [WriteMode.inPlace, WriteMode.inPlace, WriteMode.inPlace] ∧
    save_checkpoint_after (⟨"m", 1, some [5], [7]⟩ : ProcessorState Nat Nat)
        ⟨some [], some [], some ⟨0, "m", 1⟩⟩ 1 =
      ⟨some [5], some [], some ⟨0, "m", 1⟩⟩ ∧
    ((⟨some [5], some [], some ⟨0, "m", 1⟩⟩ : CheckpointData Nat Nat).index_file.getD
        []).length ≠
      ((⟨some [5], some [], some ⟨0, "m", 1⟩⟩ : CheckpointData Nat Nat).metadata_file.getD
        []).length := by
  refine ⟨rfl, rfl, by decide⟩

/-- Claim C5 (amended): save_checkpoint writes the index, metadata, and
state artifacts directly to their final locations, in that order, with no
temporary-location-then-replace step; a crash between the first and second
write leaves the new index next to the previous metadata, so the store can
hold an index file and a metadata file that disagree in row count. -/
theorem save_checkpoint_in_place_sequence {V μ : Type} (p : ProcessorState V μ)
    (s0 : CheckpointData V μ) :
    (∀ w, w ∈ save_checkpoint_writes p → w.1 = WriteMode.inPlace) ∧
    save_checkpoint_after p s0 1 =
      ⟨some (p.faiss_index.getD []), s0.metadata_file, s0.state_file⟩ ∧
    save_checkpoint_after p s0 2 =
      ⟨some (p.faiss_index.getD []), some p.metadata, s0.state_file⟩ ∧
    save_checkpoint_after p s0 3 = save_checkpoint p := by
  refine ⟨?_, rfl, rfl, rfl⟩
  intro w hw
  simp [save_checkpoint_writes] at hw
  rcases hw with h | h | h <;> rw [h]
